import Mathlib

/-!
Verification of the protocol-types generator (utils/generate_protocol_types.py).

The development shallowly embeds the type-synthesis and reference-resolution
pipeline of the generator: field-source selection, TypedDict synthesis with
bounded self-recursive expansion, the two textual resolution passes, the
cross-reference graph, cycle breaking, and document emission.

Python strings are modelled as Lean strings; the handful of string
operations the generator uses (split, substring test, replace, strip) are
implemented below with Python semantics, and the three fixed regular
expressions of the source are implemented by a small backtracking matcher
over a token pattern language (literal character and greedy word-class
plus).  All recursive functions carry an explicit structural fuel argument
so that every definition reduces inside the kernel; fuel is always ample
for the bounded recursions of the source (the recursion of
generate_typed_dicts is capped by MAX_RECURSIVE_TYPE_EXPANSION_DEPTH, and
nested forward-reference resolution is bounded by the registry), so the
fuel-exhaustion error constructor is unreachable on the runs studied here.
-/

namespace ProtoGen

/-- Python exception model: the generator can raise KeyError, ValueError,
NameError and AssertionError; fuelOut is the artificial fuel guard. -/
inductive PyErr where
  | keyError (k : String)
  | valueError (m : String)
  | nameError (m : String)
  | assertError
  | fuelOut
deriving DecidableEq, Repr

/-- The single-quote character, written by code point to keep source free of
quote characters. -/
def qc : Char := Char.ofNat 39

/-- One-character string holding a single quote. -/
def qs : String := String.mk [qc]

/-- Prefix test on character lists. -/
def isPref : List Char → List Char → Bool
  | [], _ => true
  | _ :: _, [] => false
  | a :: as2, b :: bs => a == b && isPref as2 bs

/-- Python `sub in s` substring containment (sub nonempty in all uses). -/
def containsAux (sub : List Char) : Nat → List Char → Bool
  | 0, _ => false
  | _ + 1, [] => isPref sub []
  | f + 1, cs =>
    if isPref sub cs then true
    else
      match cs with
      | [] => false
      | _ :: t => containsAux sub f t

/-- Python `sub in s`. -/
def pyContains (s sub : String) : Bool :=
  containsAux sub.data (s.data.length + 1) s.data

/-- Python `s.replace(old, new)`: all non-overlapping occurrences, left to
right (old nonempty in all uses). -/
def replaceAux (old new : List Char) : Nat → List Char → List Char
  | 0, cs => cs
  | f + 1, cs =>
    if isPref old cs && !old.isEmpty then new ++ replaceAux old new f (cs.drop old.length)
    else
      match cs with
      | [] => []
      | c :: t => c :: replaceAux old new f t

/-- Python `s.replace(old, new)`. -/
def pyReplace (s old new : String) : String :=
  String.mk (replaceAux old.data new.data (s.data.length + 1) s.data)

/-- Python `s.split(sep)` core loop for a nonempty separator. -/
def splitSepAux (sep : List Char) : Nat → List Char → List Char → List String
  | 0, acc, rest => [String.mk (acc.reverse ++ rest)]
  | _ + 1, acc, [] => [String.mk acc.reverse]
  | f + 1, acc, c :: t =>
    if isPref sep (c :: t) then
      String.mk acc.reverse :: splitSepAux sep f [] ((c :: t).drop sep.length)
    else
      splitSepAux sep f (c :: acc) t

/-- Python `s.split(sep)` for a nonempty separator. -/
def pySplit (s sep : String) : List String :=
  splitSepAux sep.data (s.data.length + 1) [] s.data

/-- Python `s.split(".")`, used by get_forward_ref. -/
def pySplitDot (s : String) : List String := pySplit s (".")

/-- Python `s.strip(chars)` specialised to stripping single quotes. -/
def pyStripQ (s : String) : String :=
  String.mk (((s.data.dropWhile (fun c => c == qc)).reverse.dropWhile (fun c => c == qc)).reverse)

/-- Python `line.strip()` emptiness test: true iff every character is
whitespace. -/
def pyStripEmpty (s : String) : Bool :=
  s.data.all (fun c => c == ' ' || c == Char.ofNat 9 || c == Char.ofNat 10 || c == Char.ofNat 13)

/-- Python string comparison (code-point lexicographic), as used by
`sorted`. -/
def charListLt : List Char → List Char → Bool
  | [], [] => false
  | [], _ :: _ => true
  | _ :: _, [] => false
  | a :: as2, b :: bs =>
    if a < b then true else if b < a then false else charListLt as2 bs

/-- Python `s1 < s2` on strings. -/
def strLtB (a b : String) : Bool := charListLt a.data b.data

/-- Python `"\n".join(lines)`. -/
def joinNL : List String → String
  | [] => ""
  | [s] => s
  | s :: t₁ :: t₂ => s ++ "\n" ++ joinNL (t₁ :: t₂)

/-! ### The pattern matcher

The source uses three fixed regular expressions:

* the forward-reference pattern, a quoted `Protocol.\w+.\w+` token;
* `_\w+_\w+`, the synthesized-structure naming pattern; and
* the quoted form of the naming pattern, used by copy_with_filter.

Each is a sequence of literal characters and greedy `\w+` groups; the
matcher below reproduces the leftmost search with greedy backtracking of
the Python `re` module for exactly this pattern language. -/

/-- A regex token: a literal character or a greedy `\w+`. -/
inductive RTok where
  | lit (c : Char)
  | wplus
deriving DecidableEq, Repr

/-- Python `\w` on the ASCII inputs of the generator. -/
def isWChar (c : Char) : Bool := c.isAlphanum || c == '_'

/-- Greedy backtracking for a `\w+` group: try the longest run first. -/
def tryW (rest : List Char → Option Nat) : Nat → List Char → Option Nat
  | 0, _ => none
  | k + 1, cs =>
    match rest (cs.drop (k + 1)) with
    | some n => some (k + 1 + n)
    | none => tryW rest k cs

/-- Match a token pattern at the head of a character list, returning the
number of characters consumed.  Fuel is the pattern length plus one. -/
def matchToks : Nat → List RTok → List Char → Option Nat
  | 0, _, _ => none
  | _ + 1, [], _ => some 0
  | f + 1, RTok.lit c :: ps, cs =>
    match cs with
    | [] => none
    | d :: t => if d == c then (matchToks f ps t).map (fun n => n + 1) else none
  | f + 1, RTok.wplus :: ps, cs =>
    tryW (fun rest => matchToks f ps rest) ((cs.takeWhile isWChar).length) cs

/-- Leftmost search: returns the start index and length of the first
match. -/
def searchFrom (pat : List RTok) : List Char → Nat → Option (Nat × Nat)
  | [], i =>
    match matchToks (pat.length + 1) pat [] with
    | some n => some (i, n)
    | none => none
  | c :: t, i =>
    match matchToks (pat.length + 1) pat (c :: t) with
    | some n => some (i, n)
    | none => searchFrom pat t (i + 1)

/-- Python `re.search(pat, s)`: start and length of the leftmost match. -/
def searchPat (pat : List RTok) (cs : List Char) : Option (Nat × Nat) :=
  searchFrom pat cs 0

/-- Python `re.sub(pat, repl, s)` with a constant replacement (every pattern
used consumes at least one character). -/
def subPatAux (pat : List RTok) (repl : List Char) : Nat → List Char → List Char
  | 0, cs => cs
  | f + 1, cs =>
    match matchToks (pat.length + 1) pat cs with
    | some n => repl ++ subPatAux pat repl f (cs.drop n)
    | none =>
      match cs with
      | [] => []
      | c :: t => c :: subPatAux pat repl f t

/-- Python `re.sub(pat, repl, s)` with a constant replacement string. -/
def subPat (pat : List RTok) (repl : String) (s : String) : String :=
  String.mk (subPatAux pat repl.data (s.data.length + 1) s.data)

/-- Literal tokens of a string. -/
def litToks (s : String) : List RTok := s.data.map RTok.lit

/-- The forward-reference pattern of the source, a quoted
`Protocol.\w+.\w+` token. -/
def fwrefPat : List RTok :=
  litToks (qs ++ "Protocol.") ++ [RTok.wplus, RTok.lit '.', RTok.wplus] ++ litToks qs

/-- The synthesized-structure naming pattern `_\w+_\w+`. -/
def structPat : List RTok :=
  [RTok.lit '_', RTok.wplus, RTok.lit '_', RTok.wplus]

/-- The quoted naming pattern used by copy_with_filter. -/
def quotedStructPat : List RTok :=
  litToks qs ++ structPat ++ litToks qs

end ProtoGen

namespace ProtoGen

/-! ### Schema data model

Schema nodes mirror the JSON dictionaries consumed by the generator:
an optional field models the presence of the corresponding dictionary key.
The descriptor shape carries the keys inspected by convert_js_to_py_type
(`type`, `items`, `$ref`, `enum`); `items` is itself either a reference or
a primitive, matching the two item shapes the converter handles. -/

/-- The descriptor-shape keys of a schema node. -/
structure DescShape where
  type? : Option String := none
  itemsRef? : Option String := none
  itemsType? : Option String := none
  ref? : Option String := none
  enum? : Option (List String) := none
deriving DecidableEq, Repr

/-- A field node (command parameter, return field, or object property). -/
structure FieldNode where
  name : String
  description? : Option String := none
  optional : Bool := false
  shape : DescShape := {}
deriving DecidableEq, Repr

/-- A type or command (or event) node: the union of the dictionary keys the
generator inspects on such nodes. -/
structure InfoNode where
  id? : Option String := none
  name? : Option String := none
  description? : Option String := none
  returns? : Option (List FieldNode) := none
  parameters? : Option (List FieldNode) := none
  properties? : Option (List FieldNode) := none
  shape : DescShape := {}
deriving DecidableEq, Repr

/-- A schema domain. -/
structure Domain where
  domain : String
  description? : Option String := none
  types : List InfoNode := []
  commands : List InfoNode := []
  events : List InfoNode := []
deriving DecidableEq, Repr

/-- Number of keys of the underlying Python dictionary of a node (the
`items` sub-dictionary counts as one key), used by the leaked
`len(type_info)` expression of gen_spec. -/
def InfoNode.dictLen (t : InfoNode) : Nat :=
  (if t.id?.isSome then 1 else 0) + (if t.name?.isSome then 1 else 0)
    + (if t.description?.isSome then 1 else 0)
    + (if t.returns?.isSome then 1 else 0)
    + (if t.parameters?.isSome then 1 else 0)
    + (if t.properties?.isSome then 1 else 0)
    + (if t.shape.type?.isSome then 1 else 0)
    + (if t.shape.itemsRef?.isSome || t.shape.itemsType?.isSome then 1 else 0)
    + (if t.shape.ref?.isSome then 1 else 0)
    + (if t.shape.enum?.isSome then 1 else 0)

/-! ### Known types registry and association-list helpers -/

/-- Association lookup by string key. -/
def assocFind {α : Type} (m : List (String × α)) (k : String) : Option α :=
  match m with
  | [] => none
  | (k2, v) :: t => if k2 = k then some v else assocFind t k

/-- Python dict assignment `m[k] = v`: replace in place, else append. -/
def assocSet {α : Type} (m : List (String × α)) (k : String) (v : α) :
    List (String × α) :=
  match m with
  | [] => [(k, v)]
  | (k2, v2) :: t => if k2 = k then (k, v) :: t else (k2, v2) :: assocSet t k v

/-- Python `d1.update(d2)`. -/
def assocUpdate {α : Type} (m upd : List (String × α)) : List (String × α) :=
  upd.foldl (fun acc kv => assocSet acc kv.1 kv.2) m

/-- The all_known_types registry: domain name to item map. -/
abbrev AKT := List (String × List (String × String))

/-- Registry write `all_known_types[d][k] = v` (the domain map is created by
gen_spec before any write). -/
def aktSet (akt : AKT) (d k v : String) : AKT :=
  match assocFind akt d with
  | some m => assocSet akt d (assocSet m k v)
  | none => assocSet akt d [(k, v)]

/-- Registry read `all_known_types[d][k]`, raising KeyError like Python. -/
def aktGet2 (akt : AKT) (d k : String) : Except PyErr String :=
  match assocFind akt d with
  | none => Except.error (PyErr.keyError d)
  | some m =>
    match assocFind m k with
    | none => Except.error (PyErr.keyError k)
    | some v => Except.ok v

/-! ### Type conversion -/

/-- The fixed primitive table js_to_py_types. -/
def js_to_py_types : List (String × String) :=
  [("any", "Any"), ("string", "str"), ("object", "Dict[str, str]"),
   ("boolean", "bool"), ("number", "float"), ("integer", "int"),
   ("binary", "bytes")]

/-- The values of the primitive table, in dictionary order. -/
def jsToPyValues : List String := js_to_py_types.map (fun kv => kv.2)

/-- Table lookup `js_to_py_types[t]`, raising KeyError when absent. -/
def jsLookup (t : String) : Except PyErr String :=
  match assocFind js_to_py_types t with
  | some v => Except.ok v
  | none => Except.error (PyErr.keyError t)

/-- String membership decided by equality. -/
def elemStr (s : String) : List String → Bool
  | [] => false
  | a :: t => if a = s then true else elemStr s t

/-- Prefix test on strings, Python `s.startswith(p)`. -/
def strStarts (s p : String) : Bool := isPref p.data s.data

/-- get_forward_ref of the source: a two-segment reference is already
domain-qualified, any other shape is qualified with the context domain;
the result is the quoted absolute token. -/
def get_forward_ref (relative_ref potential_domain_context : String) : String :=
  let non_fw_ref :=
    if (pySplitDot relative_ref).length = 2 then
      "Protocol." ++ relative_ref
    else
      "Protocol." ++ potential_domain_context ++ "." ++ relative_ref
  qs ++ non_fw_ref ++ qs

/-- Comma-space join used for Literal enum values. -/
def joinCommaSp : List String → String
  | [] => ""
  | [s] => s
  | s :: t₁ :: t₂ => s ++ ", " ++ joinCommaSp (t₁ :: t₂)

/-- convert_js_to_py_type on a descriptor dictionary.  The branch order is
that of the source: `items` first (with the array assertion), then `$ref`,
then `enum`, then the primitive `type` lookup.  The isinstance(str) branch
of the source corresponds to jsLookup and is reached for the primitive
name stored under `items.type`. -/
def convert_js_to_py_type (shape : DescShape) (domain_name : String) :
    Except PyErr String :=
  if shape.itemsRef?.isSome || shape.itemsType?.isSome then
    match shape.type? with
    | none => Except.error (PyErr.keyError ("type"))
    | some t =>
      if t ≠ "array" then Except.error PyErr.assertError
      else
        match shape.itemsRef? with
        | some r => Except.ok ("List[" ++ get_forward_ref r domain_name ++ "]")
        | none =>
          match shape.itemsType? with
          | some it =>
            Except.map (fun p => "List[" ++ p ++ "]") (jsLookup it)
          | none => Except.error (PyErr.keyError ("type"))
  else
    match shape.ref? with
    | some r => Except.ok (get_forward_ref r domain_name)
    | none =>
      match shape.enum? with
      | some vals =>
        Except.ok ("Literal[" ++ joinCommaSp (vals.map (fun v => qs ++ v ++ qs)) ++ "]")
      | none =>
        match shape.type? with
        | some t => jsLookup t
        | none => Except.error (PyErr.keyError ("type"))

/-! ### TypedDict generation -/

/-- A TypedDictGenerator instance: name, total flag, and generated code
lines (the class header followed by field lines). -/
structure TypedDictGen where
  name : String
  total : Bool
  code_lines : List String
deriving DecidableEq, Repr

/-- TypedDictGenerator construction: the class header carries
`, total=False` exactly when the flag is set. -/
def TypedDictGen.new (name : String) (total : Bool) : TypedDictGen :=
  { name := name, total := total,
    code_lines :=
      ["class " ++ name ++ "(TypedDict" ++ (if total then ", total=False" else "") ++ "):"] }

/-- copy_with_filter: a fresh TypedDict with a new name and the same total
flag whose field lines have every quoted synthesized-structure reference
replaced by the generic substitute. -/
def copy_with_filter (td : TypedDictGen) (new_name sub_r : String) : TypedDictGen :=
  let inst := TypedDictGen.new new_name td.total
  { inst with code_lines := inst.code_lines ++ (td.code_lines.drop 1).map (subPat quotedStructPat sub_r) }

/-- _multi_fallback_get(type_info, "returns", "parameters", "properties"):
the first present field source in the fixed priority order; KeyError when
none is present. -/
def multi_fallback_get_fields (ti : InfoNode) : Except PyErr (List FieldNode) :=
  match ti.returns? with
  | some v => Except.ok v
  | none =>
    match ti.parameters? with
    | some v => Except.ok v
    | none =>
      match ti.properties? with
      | some v => Except.ok v
      | none => Except.error (PyErr.keyError ("returns, parameters, properties"))

/-- _multi_fallback_get(type_info, "id", "name"). -/
def multi_fallback_get_name (ti : InfoNode) : Except PyErr String :=
  match ti.id? with
  | some v => Except.ok v
  | none =>
    match ti.name? with
    | some v => Except.ok v
    | none => Except.error (PyErr.keyError ("id, name"))

/-- MAX_RECURSIVE_TYPE_EXPANSION_DEPTH of the source. -/
def MAX_RECURSIVE_TYPE_EXPANSION_DEPTH : Nat := 2

/-- is_total of generate_typed_dicts: true iff any field is optional. -/
def isTotalOf (items : List FieldNode) : Bool :=
  items.any (fun x => x.optional)

/-- The generic fallback substituted when the expansion depth cap is
reached. -/
def recursionFallback : String := "Dict[str, Dict[str, Any]]"

/-- The depth-marker update of generate_typed_dicts (source lines 300-303):
an existing FWRef marker is incremented in place, otherwise a fresh marker
is appended. -/
def nextTdName (td_name : String) (depth : Nat) : String :=
  if pyContains td_name ("FWRef") then
    pyReplace td_name ("FWRef" ++ toString ((depth : Int) - 1)) ("FWRef" ++ toString (depth : Int))
  else
    td_name ++ "_FWRef" ++ toString depth

/-- Field-line comment of add_comment_from_info at the TypedDict indent. -/
def fieldComment (item : FieldNode) : List String :=
  match item.description? with
  | some d => ["    # " ++ pyReplace d ("\n") (" ")]
  | none => []

/-- State of the item loop of generate_typed_dicts: the mutable local
td_name, the memoised non_recursive_ref, the accumulated field lines of the
base TypedDict and the TypedDicts produced by recursive expansion. -/
structure GtdLoopSt where
  td_name : String
  nrr : Option String
  lines : List String
  tds : List (String × TypedDictGen)
deriving DecidableEq, Repr

/-- The item loop of generate_typed_dicts.  `recGen` is the recursive call
into generate_typed_dicts at depth + 1. -/
def gtdLoop
    (recGen : InfoNode → String → Option String → Nat → Except PyErr (List (String × TypedDictGen)))
    (ti : InfoNode) (domain_name recursive_ref : String) (depth : Nat) :
    List FieldNode → GtdLoopSt → Except PyErr GtdLoopSt
  | [], st => Except.ok st
  | item :: rest, st => do
    let st := { st with lines := st.lines ++ fieldComment item }
    let t0 ← convert_js_to_py_type item.shape domain_name
    let (st, ty) ←
      if pyContains t0 recursive_ref then
        match st.nrr with
        | some r => pure (st, pyReplace t0 recursive_ref r)
        | none =>
          if MAX_RECURSIVE_TYPE_EXPANSION_DEPTH ≤ depth then
            pure ({ st with nrr := some recursionFallback },
                  pyReplace t0 recursive_ref recursionFallback)
          else do
            let nm := nextTdName st.td_name depth
            let sub ← recGen ti domain_name (some nm) (depth + 1)
            pure ({ st with td_name := nm, nrr := some nm,
                            tds := assocUpdate st.tds sub },
                  pyReplace t0 recursive_ref nm)
      else
        pure (st, t0)
    gtdLoop recGen ti domain_name recursive_ref depth rest
      { st with lines := st.lines ++ ["    " ++ item.name ++ ": " ++ ty] }

/-- Insertion into a key-sorted association list (stable, ascending). -/
def insSorted (p : String × TypedDictGen) :
    List (String × TypedDictGen) → List (String × TypedDictGen)
  | [] => [p]
  | x :: t => if strLtB p.1 x.1 then p :: x :: t else x :: insSorted p t

/-- Python `sorted(tds.items(), key=lambda x: x[0])`. -/
def sortByKey (l : List (String × TypedDictGen)) : List (String × TypedDictGen) :=
  l.foldl (fun acc p => insSorted p acc) []

/-- generate_typed_dicts of the source.  The fuel argument makes the
recursion structural; the recursion of the source is capped by the depth
guard, so any fuel above MAX_RECURSIVE_TYPE_EXPANSION_DEPTH + 1 is ample
and the fuel branch is unreachable from the entry points used here. -/
def generate_typed_dicts :
    Nat → InfoNode → String → Option String → Nat →
    Except PyErr (List (String × TypedDictGen))
  | 0, _, _, _, _ => Except.error PyErr.fuelOut
  | f + 1, ti, domain_name, nameArg, depth => do
    let items ← multi_fallback_get_fields ti
    let type_info_name ← multi_fallback_get_name ti
    let recursive_ref := get_forward_ref type_info_name domain_name
    let td_name := nameArg.getD type_info_name
    let is_total := isTotalOf items
    let st ← gtdLoop
      (fun ti2 dn nm d => generate_typed_dicts f ti2 dn nm d)
      ti domain_name recursive_ref depth items
      { td_name := td_name, nrr := none, lines := [], tds := [] }
    let base_td : TypedDictGen :=
      let b := TypedDictGen.new td_name is_total
      { b with code_lines := b.code_lines ++ st.lines }
    Except.ok (sortByKey (assocUpdate [(td_name, base_td)] st.tds))

/-- Ample fuel for generate_typed_dicts (the depth guard caps recursion at
MAX_RECURSIVE_TYPE_EXPANSION_DEPTH + 1 nested calls). -/
def GFUEL : Nat := 10

end ProtoGen

namespace ProtoGen

/-! ### Forward-reference resolution

resolve_forward_ref_on_line substitutes every quoted `Protocol.d.r` token
using _resolve_forward_ref_re_sub_repl: the registry value is looked up,
nested tokens in the value are resolved recursively, and a value that is
not a primitive, Literal or List type is re-quoted as a deferred
reference.  The try/except of the source catches a ValueError from the
block and re-raises it with the fixed message.  The recursion fuel bounds
the nested resolution; the registry chains of the runs studied are
shallow, so the fuel branch is unreachable there. -/

/-- The replacement function _resolve_forward_ref_re_sub_repl, with the
recursive resolution of nested tokens supplied as `recRes`.  `grp` is the
first capture group, `\w+.\w+`. -/
def resolveReplCore (akt : AKT) (recRes : String → Except PyErr String)
    (grp : String) : Except PyErr String :=
  let body : Except PyErr String :=
    match pySplitDot grp with
    | [domain_, ref] => do
      let resolved ← aktGet2 akt domain_ ref
      let resolved ←
        if (searchPat fwrefPat resolved.data).isSome then recRes resolved
        else pure resolved
      if !elemStr resolved jsToPyValues
          && !strStarts resolved ("Literal")
          && !strStarts resolved ("List") then
        pure (qs ++ resolved ++ qs)
      else
        pure resolved
    | _ => Except.error (PyErr.valueError ("too few values to unpack"))
  match body with
  | Except.error (PyErr.valueError _) =>
    Except.error (PyErr.valueError ("Forward reference not nested as expected"))
  | other => other

/-- One re.sub scan over a line with the replacement function `repl`:
non-matching characters are copied, each leftmost match of the
forward-reference pattern is replaced by the value of `repl` on its
capture group (the match minus the 10-character quoted prefix and the
closing quote), and scanning resumes after the match. -/
def scanFw (repl : String → Except PyErr String) :
    Nat → List Char → Except PyErr (List Char)
  | 0, cs => Except.ok cs
  | f + 1, cs =>
    match matchToks (fwrefPat.length + 1) fwrefPat cs with
    | some n => do
      let grp := String.mk (((cs.take n).drop 10).dropLast)
      let r ← repl grp
      let rest ← scanFw repl f (cs.drop n)
      pure (r.data ++ rest)
    | none =>
      match cs with
      | [] => Except.ok []
      | c :: t => do
        let rest ← scanFw repl f t
        pure (c :: rest)

/-- resolve_forward_ref_on_line with recursion fuel for nested
resolution. -/
def resolveLine (akt : AKT) : Nat → String → Except PyErr String
  | 0, _ => Except.error PyErr.fuelOut
  | rf + 1, line =>
    Except.map String.mk
      (scanFw (fun g => resolveReplCore akt (fun s => resolveLine akt rf s) g)
        (line.data.length + 1) line.data)

/-- Ample recursion fuel for resolveLine. -/
def RFUEL : Nat := 20

/-! ### Generator state and the schema walk -/

/-- The mutable state of ProtocolTypesGenerator and its TypingCodeGenerator
during gen_spec: the known-types registry, the TypedDict table, the
cross-reference record, the three line buffers of the code generator, and
the leaked loop variable type_info of the types loop. -/
structure GenState where
  akt : AKT
  typed_dicts : List (String × TypedDictGen)
  xrefs : List (String × List String)
  import_lines : List String
  inserted_lines : List String
  code_lines : List String
  lastTypeInfo : Option InfoNode
deriving DecidableEq, Repr

/-- The import section produced by TypingCodeGenerator.init_imports
(add_newlines(num=n) appends n+1 empty lines, since the n newline
characters split into n+1 pieces). -/
def initImportLines : List String :=
  ["import sys", "", "",
   "from typing import List, Dict, Any", "", "",
   "if sys.version_info < (3,8):",
   "    from typing_extensions import Literal, TypedDict",
   "else:",
   "    from typing import Literal, TypedDict",
   "", "", ""]

/-- The header docstring lines inserted before the code; `ts` is the
timestamp rendered by datetime.utcnow(), an input of the model. -/
def headerLines (ts : String) : List String :=
  ["Automatically generated by ./utils/generate_protocol_types",
   "            Attention! This file should not be modified directly! Instead, use the script to create it. ",
   "    ",
   "            Last regeneration: " ++ ts]

/-- The initial generator state at the top of gen_spec, after the header
insertion and the two leading newlines (three empty code lines). -/
def initState (ts : String) : GenState :=
  { akt := [], typed_dicts := [], xrefs := [],
    import_lines := initImportLines,
    inserted_lines := ([("\"\"\"")] ++ headerLines ts ++ [("\"\"\"")]),
    code_lines := ["", "", ""],
    lastTypeInfo := none }

/-- add_comment_from_info on a node description at a given indent. -/
def commentLines (indent : String) (d? : Option String) : List String :=
  match d? with
  | some d => [indent ++ "# " ++ pyReplace d ("\n") (" ")]
  | none => []

/-- The types-loop body of gen_spec for one type node: the loop variable
assignment (lastTypeInfo) happens before the body, then the comment, the
id lookup, TypedDict synthesis or plain conversion, the registry write and
the alias line. -/
def processType (st : GenState) (domain_name : String) (ti : InfoNode) :
    Except PyErr GenState := do
  let st := { st with lastTypeInfo := some ti }
  let st := { st with code_lines := st.code_lines ++ commentLines "        " ti.description? }
  let item_name ←
    match ti.id? with
    | some v => pure v
    | none => Except.error (PyErr.keyError ("id"))
  let (st, ty) ←
    if ti.properties?.isSome then do
      let ty := "_" ++ domain_name ++ "_" ++ item_name
      let tds ← generate_typed_dicts GFUEL ti domain_name (some ty) 0
      pure ({ st with typed_dicts := assocUpdate st.typed_dicts tds }, ty)
    else do
      let ty ← convert_js_to_py_type ti.shape domain_name
      pure (st, ty)
  pure { st with
          akt := aktSet st.akt domain_name item_name ty,
          code_lines := st.code_lines ++ ["        " ++ item_name ++ " = " ++ ty] }

/-- The commands-loop body of gen_spec for one command node: name lookup,
comment, the Parameters alias (a synthesized TypedDict when `parameters`
is present, otherwise None) and the ReturnValue alias (likewise gated on
`returns`). -/
def processCommand (st : GenState) (domain_name : String) (ci : InfoNode) :
    Except PyErr GenState := do
  let item_name ←
    match ci.name? with
    | some v => pure v
    | none => Except.error (PyErr.keyError ("name"))
  let st := { st with code_lines := st.code_lines ++ commentLines "        " ci.description? }
  let (st, pty) ←
    if ci.parameters?.isSome then do
      let ty := item_name ++ "_" ++ domain_name ++ "_Parameters"
      let tds ← generate_typed_dicts GFUEL ci domain_name (some ty) 0
      pure ({ st with typed_dicts := assocUpdate st.typed_dicts tds }, ty)
    else
      pure (st, "None")
  let st := { st with
                akt := aktSet st.akt domain_name (item_name ++ "Parameters") pty,
                code_lines := st.code_lines ++ ["        " ++ item_name ++ "Parameters = " ++ pty] }
  let (st, rty) ←
    if ci.returns?.isSome then do
      let ty := item_name ++ "_" ++ domain_name ++ "_ReturnValue"
      let tds ← generate_typed_dicts GFUEL ci domain_name (some ty) 0
      pure ({ st with typed_dicts := assocUpdate st.typed_dicts tds }, ty)
    else
      pure (st, "None")
  pure { st with
          akt := aktSet st.akt domain_name (item_name ++ "ReturnValue") rty,
          code_lines := st.code_lines ++ ["        " ++ item_name ++ "ReturnValue = " ++ rty] }

/-- One domain of the walk: the nested class line, the domain comment, the
fresh registry entry, the types and commands loops, and the trailing
add_newlines(num=1) at the inner indent (two lines of eight spaces). -/
def processDomain (st : GenState) (d : Domain) : Except PyErr GenState := do
  let st := { st with
                code_lines := st.code_lines ++ ["    class " ++ d.domain ++ ":"]
                  ++ commentLines "    " d.description?,
                akt := assocSet st.akt d.domain [] }
  let st ← d.types.foldlM (fun s t => processType s d.domain t) st
  let st ← d.commands.foldlM (fun s c => processCommand s d.domain c) st
  pure { st with code_lines := st.code_lines ++ ["        ", "        "] }

/-- The Events / CommandParameters / CommandReturnValues lookup tables. -/
def tableLines (schema : List Domain) : List String :=
  ["    class Events:"]
    ++ schema.foldr (fun d acc =>
        (d.events.map (fun e =>
          "        " ++ d.domain ++ "." ++ (e.name?.getD "") ++ " = "
            ++ qs ++ "Protocol." ++ d.domain ++ "." ++ (e.name?.getD "") ++ "Payload" ++ qs)) ++ acc) []
    ++ ["    class CommandParameters:"]
    ++ schema.foldr (fun d acc =>
        (d.commands.map (fun c =>
          "        " ++ d.domain ++ "." ++ (c.name?.getD "") ++ " = "
            ++ qs ++ "Protocol." ++ d.domain ++ "." ++ (c.name?.getD "") ++ "Parameters" ++ qs)) ++ acc) []
    ++ ["    class CommandReturnValues:"]
    ++ schema.foldr (fun d acc =>
        (d.commands.map (fun c =>
          "        " ++ d.domain ++ "." ++ (c.name?.getD "") ++ " = "
            ++ qs ++ "Protocol." ++ d.domain ++ "." ++ (c.name?.getD "") ++ "ReturnValue" ++ qs)) ++ acc) []

/-- The schema walk of gen_spec (source lines 122-199): header, the
Protocol class with every domain, and the three lookup tables.  Event and
command name access uses the `name` key directly in the f-strings of the
source; absent names are not exercised here (the model renders them as the
empty string, the source would raise KeyError). -/
def genWalk (ts : String) (schema : List Domain) : Except PyErr GenState := do
  let st := initState ts
  let st := { st with code_lines := st.code_lines ++ ["class Protocol:"] }
  let st ← schema.foldlM processDomain st
  pure { st with code_lines := st.code_lines ++ tableLines schema }

/-! ### The resolution passes -/

/-- Pass 1 (source lines 203-207): rewrite every code line that is
non-blank and mentions Protocol. -/
def pass1 (st : GenState) : Except PyErr GenState := do
  let lines ← st.code_lines.mapM (fun line =>
    if pyStripEmpty line || !pyContains line ("Protocol") then pure line
    else resolveLine st.akt RFUEL line)
  pure { st with code_lines := lines }

/-- Record a cross reference (source lines 216-220): initialise the list
for the TypedDict on first use and append the stripped reference if new. -/
def xrefAdd (xrefs : List (String × List String)) (td_name ref : String) :
    List (String × List String) :=
  let xrefs :=
    match assocFind xrefs td_name with
    | some _ => xrefs
    | none => xrefs ++ [(td_name, [])]
  match assocFind xrefs td_name with
  | some l => if elemStr ref l then xrefs else assocSet xrefs td_name (l ++ [ref])
  | none => xrefs

/-- Pass 2 body for one TypedDict (source lines 210-221): resolve each
line, and when the resolved line splits on `: ` into exactly two parts
whose right side matches the structure naming pattern, record the quoted
reference (stripped of quotes) as a cross reference. -/
def pass2Td (akt : AKT) (st : List (String × TypedDictGen) × List (String × List String))
    (entry : String × TypedDictGen) :
    Except PyErr (List (String × TypedDictGen) × List (String × List String)) := do
  let (lines, xrefs) ← entry.2.code_lines.foldlM
    (fun (acc : List String × List (String × List String)) line => do
      let resolved ← resolveLine akt RFUEL line
      let xrefs :=
        match pySplit resolved (": ") with
        | [_, refPart] =>
          if (searchPat structPat refPart.data).isSome then
            xrefAdd acc.2 entry.1 (pyStripQ refPart)
          else acc.2
        | _ => acc.2
      pure (acc.1 ++ [resolved], xrefs))
    ([], st.2)
  pure (st.1 ++ [(entry.1, { entry.2 with code_lines := lines })], xrefs)

/-- Pass 2 over all TypedDicts. -/
def pass2 (st : GenState) : Except PyErr GenState := do
  let (tds, xrefs) ← st.typed_dicts.foldlM (pass2Td st.akt) ([], st.xrefs)
  pure { st with typed_dicts := tds, xrefs := xrefs }

/-! ### The cross-reference graph and cycle breaking -/

/-- Edge extraction (source lines 223-226): the capture group of the first
match of the optionally quoted naming pattern.  The optional surrounding
quotes of the source pattern do not change the captured group, which is
the leftmost greedy match of the plain naming pattern. -/
def buildEdges (xrefs : List (String × List String)) :
    Except PyErr (List (String × String)) :=
  xrefs.foldlM (fun acc nr =>
    nr.2.foldlM (fun acc2 ref =>
      match searchPat structPat ref.data with
      | some (i, n) => pure (acc2 ++ [(nr.1, String.mk ((ref.data.drop i).take n))])
      | none => Except.error (PyErr.valueError ("NoneType has no attribute group")))
      acc)
    []

/-- Nodes of the directed graph in edge insertion order. -/
def graphNodes (edges : List (String × String)) : List String :=
  edges.foldl (fun acc e =>
    let acc := if elemStr e.1 acc then acc else acc ++ [e.1]
    if elemStr e.2 acc then acc else acc ++ [e.2]) []

/-- Successors of a node. -/
def graphSucc (edges : List (String × String)) (v : String) : List String :=
  edges.foldr (fun e acc => if e.1 = v then e.2 :: acc else acc) []

/-- Simple-path search for cycles through `start` restricted to `allowed`
nodes; `path` is the reversed node sequence walked so far. -/
def cycFrom (edges : List (String × String)) (allowed : List String)
    (start : String) : Nat → String → List String → List (List String)
  | 0, _, _ => []
  | f + 1, cur, path =>
    (graphSucc edges cur).foldr (fun nxt acc =>
      (if nxt = start then [path.reverse]
       else if elemStr nxt allowed && !elemStr nxt path then
         cycFrom edges allowed start f nxt (nxt :: path)
       else []) ++ acc) []

/-- Enumeration of the simple cycles of the directed graph as node lists, a
model of networkx simple_cycles: each cycle is listed once, starting at
its first-inserted node (a self-loop yields a one-element cycle).  The
external library fixes some enumeration order and rotation; this model
fixes the canonical one. -/
def simpleCycles (edges : List (String × String)) : List (List String) :=
  let nodes := graphNodes edges
  (List.range nodes.length).foldr (fun i acc =>
    match nodes.drop i with
    | [] => acc
    | v :: _ => cycFrom edges (nodes.drop i) v (nodes.length + 1) v [v] ++ acc) []

/-- The cycle-fixing loop of gen_spec (source lines 229-239): each cycle is
destructured into exactly two nodes (a cycle of any other length raises
ValueError, as unpacking does in Python); a filtered stub copy of the
cycling target is registered under the concatenated name, and the quoted
occurrence of the target in the lines of the start structure is rewritten
to the stub. -/
def fixCycles (tds : List (String × TypedDictGen)) (cycles : List (List String)) :
    Except PyErr (List (String × TypedDictGen)) :=
  cycles.foldlM (fun tds c =>
    match c with
    | [start, cycling_start] => do
      let expanded := start ++ "_cyclic_ref" ++ cycling_start
      let target ←
        match assocFind tds cycling_start with
        | some t => pure t
        | none => Except.error (PyErr.keyError cycling_start)
      let tds := assocSet tds expanded (copy_with_filter target expanded ("Any"))
      let td1 ←
        match assocFind tds start with
        | some t => pure t
        | none => Except.error (PyErr.keyError start)
      let newLines := td1.code_lines.map (fun line =>
        if pyContains line cycling_start then
          pyReplace line (qs ++ cycling_start ++ qs) (qs ++ expanded ++ qs)
        else line)
      pure (assocSet tds start { td1 with code_lines := newLines })
    | [] => Except.error (PyErr.valueError ("not enough values to unpack (expected 2, got 0)"))
    | [_] => Except.error (PyErr.valueError ("not enough values to unpack (expected 2, got 1)"))
    | _ => Except.error (PyErr.valueError ("too many values to unpack (expected 2)")))
    tds

/-- The cycle stage: build edges from the recorded cross references,
enumerate simple cycles, and run the fixing loop. -/
def cycleStage (st : GenState) : Except PyErr GenState := do
  let edges ← buildEdges st.xrefs
  let tds ← fixCycles st.typed_dicts (simpleCycles edges)
  pure { st with typed_dicts := tds }

/-! ### Emission -/

/-- The TypedDict insertion step (source lines 241-246): last_item_index is
len(type_info) - 1 for the leaked types-loop variable (a NameError when no
type node was ever iterated); every TypedDict with index below it receives
a trailing add_newlines(num=1) (two empty lines), and all TypedDict lines
are appended to the inserted section. -/
def emitTds (st : GenState) : Except PyErr GenState := do
  let ti ←
    match st.lastTypeInfo with
    | some t => pure t
    | none => Except.error (PyErr.nameError ("type_info"))
  let last_item_index : Int := (ti.dictLen : Int) - 1
  let (tds, ins) :=
    st.typed_dicts.foldl
      (fun (acc : List (String × TypedDictGen) × List String) entry =>
        let idx : Int := acc.1.length
        let td :=
          if idx < last_item_index then
            { entry.2 with code_lines := entry.2.code_lines ++ ["", ""] }
          else entry.2
        (acc.1 ++ [(entry.1, td)], acc.2 ++ td.code_lines))
      ([], [])
  pure { st with typed_dicts := tds, inserted_lines := st.inserted_lines ++ ins }

/-- The pipeline up to and including the resolution passes. -/
def genAfterPass2 (ts : String) (schema : List Domain) : Except PyErr GenState := do
  let st ← genWalk ts schema
  let st ← pass1 st
  pass2 st

/-- The pipeline up to and including cycle breaking. -/
def genAfterCycles (ts : String) (schema : List Domain) : Except PyErr GenState := do
  let st ← genAfterPass2 ts schema
  cycleStage st

/-- gen_spec of the source: walk, pass 1, pass 2, cycle breaking, TypedDict
insertion and the final add_newlines(num=1) (two empty lines). -/
def gen_spec (ts : String) (schema : List Domain) : Except PyErr GenState := do
  let st ← genAfterCycles ts schema
  let st ← emitTds st
  pure { st with code_lines := st.code_lines ++ ["", ""] }

/-- The rendered document, TypingCodeGenerator.__str__: the three section
joins concatenated without separators. -/
def renderDoc (st : GenState) : String :=
  joinNL st.import_lines ++ joinNL st.inserted_lines ++ joinNL st.code_lines

/-- Rebuilding the cross-reference graph of a finished TypedDict table with
the same pass-2 detection and edge extraction, to state acyclicity of the
final graph. -/
def rebuiltCycles (akt : AKT) (tds : List (String × TypedDictGen)) :
    Except PyErr (List (List String)) := do
  let (_, xrefs) ← tds.foldlM (pass2Td akt) ([], [])
  let edges ← buildEdges xrefs
  pure (simpleCycles edges)

end ProtoGen

namespace ProtoGen

/-! ### Helper lemmas -/

theorem strAppendAssoc (a b c : String) : a ++ b ++ c = a ++ (b ++ c) := by
  apply String.ext
  simp [String.data_append, List.append_assoc]

theorem strAppendSplit (p a b ab : String) (h : a ++ b = ab) : p ++ ab = p ++ a ++ b := by
  rw [strAppendAssoc, h]

theorem strAppendLeftCancel {c a b : String} (h : c ++ a = c ++ b) : a = b := by
  apply String.ext
  have h2 := congrArg String.data h
  simp only [String.data_append] at h2
  exact List.append_cancel_left h2

theorem assocFind_assocSet_same {α : Type} (m : List (String × α)) (k : String) (v : α) :
    assocFind (assocSet m k v) k = some v := by
  induction m with
  | nil => simp [assocSet, assocFind]
  | cons p t ih =>
    by_cases h : p.1 = k
    · simp [assocSet, assocFind, h]
    · simp [assocSet, assocFind, h, ih]

theorem assocFind_assocSet_ne {α : Type} (m : List (String × α)) (k k2 : String) (v : α)
    (h : k2 ≠ k) : assocFind (assocSet m k2 v) k = assocFind m k := by
  induction m with
  | nil => simp [assocSet, assocFind, h]
  | cons p t ih =>
    by_cases h2 : p.1 = k2
    · simp [assocSet, assocFind, h2, h]
    · simp [assocSet, assocFind, h2, ih]

theorem aktGet2_aktSet_same (akt : AKT) (d k : String) (v : String) :
    aktGet2 (aktSet akt d k v) d k = Except.ok v := by
  unfold aktSet aktGet2
  cases h : assocFind akt d with
  | some m => simp [assocFind_assocSet_same]
  | none => simp [assocFind_assocSet_same, assocFind]

theorem aktGet2_set_set (akt : AKT) (d k1 k2 : String) (v1 v2 : String) (h : k2 ≠ k1) :
    aktGet2 (aktSet (aktSet akt d k1 v1) d k2 v2) d k1 = Except.ok v1 := by
  unfold aktGet2
  unfold aktSet
  cases h1 : assocFind akt d with
  | some m =>
    simp only [assocFind_assocSet_same]
    simp [assocFind_assocSet_same, assocFind_assocSet_ne _ _ _ _ h]
  | none =>
    simp only [assocFind_assocSet_same]
    simp [assocFind_assocSet_same, assocFind_assocSet_ne _ _ _ _ h, assocFind]

/-! ### Concrete schemas used by the claim theorems -/

/-- A command node carrying both `returns` and `parameters`. -/
def schemaCmdBoth : List Domain :=
  [{ domain := "D",
     commands := [{ name? := some ("go"),
                    parameters? := some [{ name := "p", shape := { type? := some ("string") } }],
                    returns? := some [{ name := "r", shape := { type? := some ("integer") } }] }] }]

/-- A node with none of the three field sources. -/
def nodeNoSource : InfoNode := { id? := some ("x") }

/-- A node whose `returns` key is present. -/
def nodeWithReturns : InfoNode :=
  { name? := some ("go"),
    returns? := some [{ name := "r", shape := { type? := some ("integer") } }],
    parameters? := some [{ name := "p", shape := { type? := some ("string") } }] }

/-- A self-referencing type node: property `child` references the type
itself. -/
def tiSelfRef : InfoNode :=
  { id? := some ("X"),
    properties? := some [{ name := "child", shape := { ref? := some ("X") } }] }

/-- Two structures referencing each other through the cross-reference
graph. -/
def schemaTwoCycle : List Domain :=
  [{ domain := "D",
     types := [
       { id? := some ("A"), properties? := some [{ name := "b", shape := { ref? := some ("B") } }] },
       { id? := some ("B"), properties? := some [{ name := "a", shape := { ref? := some ("A") } }] }] }]

/-- A structure that reaches itself through the graph via an alias type (the
direct self-reference is intercepted by recursion expansion, the aliased
one is not): after resolution, _D_A references _D_A. -/
def schemaSelfLoop : List Domain :=
  [{ domain := "D",
     types := [
       { id? := some ("A"), properties? := some [{ name := "next", shape := { ref? := some ("B") } }] },
       { id? := some ("B"), shape := { ref? := some ("A") } }] }]

/-- A schema declaring one event and nothing else. -/
def schemaEventOnly : List Domain :=
  [{ domain := "D", events := [{ name? := some ("ev") }] }]

/-- A schema with a synthesized structure but no type node anywhere. -/
def schemaNoTypes : List Domain :=
  [{ domain := "D",
     commands := [{ name? := some ("go"),
                    parameters? := some [{ name := "p", shape := { type? := some ("integer") } }] }] }]

/-! ### Claim theorems -/

/-- C1: the field list of every structure built by generate_typed_dicts is
taken from the first present source among returns, parameters, properties
in that fixed priority order (conjuncts 1-3); when none of the three is
present the lookup, and hence generate_typed_dicts, raises the fatal
KeyError that the specification calls MissingFieldSourceError (conjuncts
4-5); and for a command node carrying both returns and parameters the walk
produces a primary ReturnValue structure built from returns together with
a separate structure under the Parameters alias, with both alias lines
emitted (conjuncts 6-7; the priority order makes returns feed the
Parameters-named structure as well). -/
theorem C1_field_source_priority :
    (∀ (ti : InfoNode) (r : List FieldNode), ti.returns? = some r →
        multi_fallback_get_fields ti = Except.ok r)
    ∧ (∀ (ti : InfoNode) (p : List FieldNode), ti.returns? = none →
        ti.parameters? = some p → multi_fallback_get_fields ti = Except.ok p)
    ∧ (∀ (ti : InfoNode) (pr : List FieldNode), ti.returns? = none →
        ti.parameters? = none → ti.properties? = some pr →
        multi_fallback_get_fields ti = Except.ok pr)
    ∧ (∀ ti : InfoNode, ti.returns? = none → ti.parameters? = none →
        ti.properties? = none →
        multi_fallback_get_fields ti
          = Except.error (PyErr.keyError ("returns, parameters, properties")))
    ∧ (∀ (ti : InfoNode) (f : Nat) (dn : String) (nm : Option String) (dep : Nat),
        ti.returns? = none → ti.parameters? = none → ti.properties? = none →
        generate_typed_dicts (f + 1) ti dn nm dep
          = Except.error (PyErr.keyError ("returns, parameters, properties")))
    ∧ (∀ ts : String,
        (genWalk ts schemaCmdBoth).map (fun st => st.typed_dicts)
          = Except.ok
              [("go_D_Parameters",
                { name := "go_D_Parameters", total := false,
                  code_lines := ["class go_D_Parameters(TypedDict):", "    r: int"] }),
               ("go_D_ReturnValue",
                { name := "go_D_ReturnValue", total := false,
                  code_lines := ["class go_D_ReturnValue(TypedDict):", "    r: int"] })])
    ∧ (∀ ts : String,
        (genWalk ts schemaCmdBoth).map (fun st =>
          (elemStr ("        goParameters = go_D_Parameters") st.code_lines,
           elemStr ("        goReturnValue = go_D_ReturnValue") st.code_lines))
          = Except.ok (true, true)) := by
  refine ⟨?_, ?_, ?_, ?_, ?_, fun _ => rfl, fun _ => rfl⟩
  · intro ti r h
    simp [multi_fallback_get_fields, h]
  · intro ti p h1 h2
    simp [multi_fallback_get_fields, h1, h2]
  · intro ti pr h1 h2 h3
    simp [multi_fallback_get_fields, h1, h2, h3]
  · intro ti h1 h2 h3
    simp [multi_fallback_get_fields, h1, h2, h3]
  · intro ti f dn nm dep h1 h2 h3
    simp [generate_typed_dicts, multi_fallback_get_fields, h1, h2, h3, bind, Except.bind]

/-- C1 witness: the priority selection, the missing-source error and the
error propagation of generate_typed_dicts at concrete nodes. -/
theorem C1_field_source_priority_witness :
    multi_fallback_get_fields nodeWithReturns
      = Except.ok [{ name := "r", shape := { type? := some ("integer") } }]
    ∧ multi_fallback_get_fields nodeNoSource
      = Except.error (PyErr.keyError ("returns, parameters, properties"))
    ∧ generate_typed_dicts 1 nodeNoSource ("D") none 0
      = Except.error (PyErr.keyError ("returns, parameters, properties")) :=
  ⟨C1_field_source_priority.1 nodeWithReturns _ rfl,
   (C1_field_source_priority.2.2.2.1) nodeNoSource rfl rfl rfl,
   (C1_field_source_priority.2.2.2.2.1) nodeNoSource 0 ("D") none 0 rfl rfl rfl⟩

/-- C2 counterexample: in the two-structure cycle of schemaTwoCycle, the
start structure is _D_A and the cycling target is the structure named
_D_B; no stub is registered under the name formed by the claimed template
start ++ _cyclic_ref_ ++ target (which would carry a double underscore),
while a stub is registered under the direct concatenation
start ++ _cyclic_ref ++ target. -/
theorem C2_stub_name_counterexample :
    ((genAfterCycles ("TS") schemaTwoCycle).map
        (fun st => (assocFind st.typed_dicts ("_D_A" ++ "_cyclic_ref_" ++ "_D_B")).isSome)
      = Except.ok false)
    ∧ ((genAfterCycles ("TS") schemaTwoCycle).map
        (fun st => (assocFind st.typed_dicts ("_D_A" ++ "_cyclic_ref" ++ "_D_B")).isSome)
      = Except.ok true) :=
  ⟨rfl, rfl⟩

/-- C2 (amended): for the detected two-structure reference cycle, the final
TypedDict table registers a stub copy of the cycling target under the
concatenated name start ++ _cyclic_ref ++ target (rendered
_D_A_cyclic_ref_D_B because every cycling target name begins with an
underscore), every stub field whose type references a synthesized
structure is replaced by the generic Any, the occurrence of the target in
the start structure is rewritten to the stub, and rebuilding the
cross-reference graph from the final table with the same detection yields
no cycle. -/
theorem C2_cycle_breaking_amended : ∀ ts : String,
    ((genAfterCycles ts schemaTwoCycle).map (fun st => st.typed_dicts)
      = Except.ok
          [("_D_A",
            { name := "_D_A", total := false,
              code_lines := ["class _D_A(TypedDict):",
                             "    b: " ++ qs ++ "_D_A_cyclic_ref_D_B" ++ qs] }),
           ("_D_B",
            { name := "_D_B", total := false,
              code_lines := ["class _D_B(TypedDict):", "    a: " ++ qs ++ "_D_A" ++ qs] }),
           ("_D_A_cyclic_ref_D_B",
            { name := "_D_A_cyclic_ref_D_B", total := false,
              code_lines := ["class _D_A_cyclic_ref_D_B(TypedDict):", "    a: Any"] })])
    ∧ ((genAfterCycles ts schemaTwoCycle).bind (fun st => rebuiltCycles st.akt st.typed_dicts)
      = Except.ok []) :=
  fun _ => ⟨rfl, rfl⟩

/-- C3: on a self-referencing structure, generate_typed_dicts produces
exactly two auxiliary unrolled levels (_FWRef0 and _FWRef1) and the deepest
level substitutes the self-reference with the fixed generic fallback
Dict[str, Dict[str, Any]]; no structure of a third level (FWRef2) appears
in the output. -/
theorem C3_recursion_depth_cap :
    generate_typed_dicts GFUEL tiSelfRef ("D") (some ("_D_X")) 0
      = Except.ok
          [("_D_X",
            { name := "_D_X", total := false,
              code_lines := ["class _D_X(TypedDict):", "    child: _D_X_FWRef0"] }),
           ("_D_X_FWRef0",
            { name := "_D_X_FWRef0", total := false,
              code_lines := ["class _D_X_FWRef0(TypedDict):", "    child: _D_X_FWRef1"] }),
           ("_D_X_FWRef1",
            { name := "_D_X_FWRef1", total := false,
              code_lines := ["class _D_X_FWRef1(TypedDict):", "    child: " ++ recursionFallback] })]
    ∧ (generate_typed_dicts GFUEL tiSelfRef ("D") (some ("_D_X")) 0).map
        (fun l => (l.map (fun kv => kv.1)).all (fun k => !pyContains k ("FWRef2")))
      = Except.ok true :=
  ⟨rfl, rfl⟩

/-- C4 counterexample: the path a.b.c splits into three segments, which the
claim calls malformed, yet get_forward_ref raises nothing and returns the
token formed by qualifying the whole path with the context domain. -/
theorem C4_malformed_path_counterexample :
    (pySplitDot ("a.b.c")).length = 3
    ∧ get_forward_ref ("a.b.c") ("Dom") = qs ++ ("Protocol.Dom.a.b.c") ++ qs :=
  ⟨rfl, rfl⟩

/-- C4 (amended): a reference path with exactly two segments is treated as
already domain-qualified, and every other path (one segment, or a
malformed shape with three or more segments, which the source does not
reject) is qualified with the context domain; in both cases the result is
the quoted root-namespace-prefixed token, and no error is ever raised by
get_forward_ref. -/
theorem C4_reference_qualification_amended (path dom : String) :
    ((pySplitDot path).length = 2 →
        get_forward_ref path dom = qs ++ ("Protocol." ++ path) ++ qs)
    ∧ ((pySplitDot path).length ≠ 2 →
        get_forward_ref path dom = qs ++ ("Protocol." ++ dom ++ "." ++ path) ++ qs) := by
  constructor
  · intro h
    simp [get_forward_ref, h]
  · intro h
    simp [get_forward_ref, h]

/-- C4 witness: the two branches of the amended statement at concrete
paths. -/
theorem C4_reference_qualification_witness :
    get_forward_ref ("a.b") ("Dom") = qs ++ ("Protocol." ++ "a.b") ++ qs
    ∧ get_forward_ref ("c") ("Dom") = qs ++ ("Protocol." ++ "Dom" ++ "." ++ "c") ++ qs :=
  ⟨(C4_reference_qualification_amended ("a.b") ("Dom")).1 (by decide),
   (C4_reference_qualification_amended ("c") ("Dom")).2 (by decide)⟩

/-- C5: on a schema declaring one event, the walk emits the Events lookup
table line mapping D.ev to the quoted token Protocol.D.evPayload, but the
full gen_spec run fails with the KeyError evPayload, because no payload
type is ever registered for events and the pass-1 resolution of the table
line looks the token up in the registry; compilation therefore never
completes on a schema with events. -/
theorem C5_event_payload_lookup_fails : ∀ ts : String,
    (gen_spec ts schemaEventOnly = Except.error (PyErr.keyError ("evPayload")))
    ∧ ((genWalk ts schemaEventOnly).map (fun st =>
        elemStr ("        D.ev = " ++ qs ++ "Protocol.D.evPayload" ++ qs) st.code_lines)
      = Except.ok true) :=
  fun _ => ⟨rfl, rfl⟩

/-- C6 counterexample: on schemaSelfLoop the cross-reference graph contains
the self-loop edge from _D_A to itself, the cycle enumeration yields a
one-element cycle, and the run aborts with the unpacking ValueError
instead of creating a stub. -/
theorem C6_self_loop_counterexample :
    gen_spec ("TS") schemaSelfLoop
      = Except.error (PyErr.valueError ("not enough values to unpack (expected 2, got 1)")) :=
  rfl

/-- C6 (amended): a self-loop in the cross-reference graph is not handled
like a two-structure cycle: the enumerator returns it as a one-element
cycle, destructuring it into a start and a cycling target fails, and the
run aborts with a ValueError for every timestamp. -/
theorem C6_self_loop_aborts_amended : ∀ ts : String,
    gen_spec ts schemaSelfLoop
      = Except.error (PyErr.valueError ("not enough values to unpack (expected 2, got 1)")) :=
  fun _ => rfl

/-- C7: the depth-marker update of generate_typed_dicts reuses and
increments a single FWRef suffix instead of stacking markers: the name
computed at depth 2 from a depth-1 name is base_FWRef2 and not
base_FWRef1_FWRef2 (and likewise for the transitions the capped recursion
actually performs, depth 0 to FWRef0 and depth 1 to FWRef1). -/
theorem C7_depth_suffix_single_marker :
    nextTdName ("_D_X") 0 = "_D_X_FWRef0"
    ∧ nextTdName ("_D_X_FWRef0") 1 = "_D_X_FWRef1"
    ∧ nextTdName ("_D_X_FWRef1") 2 = "_D_X_FWRef2"
    ∧ nextTdName ("_D_X_FWRef1") 2 ≠ "_D_X_FWRef1_FWRef2" :=
  ⟨by decide, by decide, by decide, by decide⟩

/-- C8: the is_total flag of a structure built from a field list is true
exactly when some field is optional (the intentionally inverted naming of
the source), and the rendered class header carries the total=False marker
exactly when the flag is set. -/
theorem C8_is_total_iff_any_optional (items : List FieldNode) (name : String) :
    (isTotalOf items = true ↔ ∃ f, f ∈ items ∧ f.optional = true)
    ∧ (TypedDictGen.new name true).code_lines
        = ["class " ++ name ++ ("(TypedDict, total=False):")]
    ∧ (TypedDictGen.new name false).code_lines
        = ["class " ++ name ++ ("(TypedDict):")] := by
  refine ⟨?_, ?_, ?_⟩
  · simp [isTotalOf, List.any_eq_true]
  · simp only [TypedDictGen.new, strAppendAssoc]
    rfl
  · simp only [TypedDictGen.new, strAppendAssoc]
    rfl

/-- C9: a compilation whose schema contains a synthesized structure but no
type node never emits a document: the emitter computes the separator bound
from the leaked types-loop variable type_info, which was never assigned,
and gen_spec aborts with the NameError for type_info. -/
theorem C9_emitter_stale_loop_variable : ∀ ts : String,
    gen_spec ts schemaNoTypes = Except.error (PyErr.nameError ("type_info")) :=
  fun _ => rfl

/-- C10: for every command node lacking a parameters list, a successful
processing step emits the root-namespace alias line Parameters = None and
registers None in the known-types registry under the Parameters key, and
likewise for the ReturnValue alias of a command lacking a returns list. -/
theorem C10_missing_source_none_alias
    (st : GenState) (dn : String) (cmd : InfoNode) (c : String) (st2 : GenState)
    (hname : cmd.name? = some c)
    (hok : processCommand st dn cmd = Except.ok st2) :
    (cmd.parameters? = none →
        (("        " ++ c ++ "Parameters = None") ∈ st2.code_lines
          ∧ aktGet2 st2.akt dn (c ++ "Parameters") = Except.ok ("None")))
    ∧ (cmd.returns? = none →
        (("        " ++ c ++ "ReturnValue = None") ∈ st2.code_lines
          ∧ aktGet2 st2.akt dn (c ++ "ReturnValue") = Except.ok ("None"))) := by
  unfold processCommand at hok
  rw [hname] at hok
  simp only [pure, Except.pure, bind, Except.bind] at hok
  constructor
  · intro hp
    rw [hp] at hok
    simp only [Option.isSome_none, Bool.false_eq_true, if_false] at hok
    cases hr : cmd.returns? with
    | none =>
      rw [hr] at hok
      simp only [Option.isSome_none, Bool.false_eq_true, if_false] at hok
      cases hok
      constructor
      · have heq : ("        " ++ c ++ "Parameters = None")
            = "        " ++ c ++ "Parameters = " ++ "None" :=
          strAppendSplit ("        " ++ c) ("Parameters = ") ("None") ("Parameters = None") rfl
        rw [heq]
        simp
      · have hne : c ++ "ReturnValue" ≠ c ++ "Parameters" := by
          intro h
          have := strAppendLeftCancel h
          simp at this
        simpa using aktGet2_set_set st.akt dn (c ++ "Parameters") (c ++ "ReturnValue") ("None") ("None") hne
    | some rs =>
      rw [hr] at hok
      simp only [Option.isSome_some, if_true] at hok
      cases hg : generate_typed_dicts GFUEL cmd dn (some (c ++ "_" ++ dn ++ "_ReturnValue")) 0 with
      | error e => rw [hg] at hok; simp at hok
      | ok tds =>
        rw [hg] at hok
        simp only [] at hok
        cases hok
        constructor
        · have heq : ("        " ++ c ++ "Parameters = None")
              = "        " ++ c ++ "Parameters = " ++ "None" :=
            strAppendSplit ("        " ++ c) ("Parameters = ") ("None") ("Parameters = None") rfl
          rw [heq]
          simp
        · have hne : c ++ "ReturnValue" ≠ c ++ "Parameters" := by
            intro h
            have := strAppendLeftCancel h
            simp at this
          simpa using aktGet2_set_set st.akt dn (c ++ "Parameters")
            (c ++ "ReturnValue") ("None") (c ++ "_" ++ dn ++ "_ReturnValue") hne
  · intro hr
    rw [hr] at hok
    simp only [Option.isSome_none, Bool.false_eq_true, if_false] at hok
    cases hp : cmd.parameters? with
    | none =>
      rw [hp] at hok
      simp only [Option.isSome_none, Bool.false_eq_true, if_false] at hok
      cases hok
      constructor
      · have heq : ("        " ++ c ++ "ReturnValue = None")
            = "        " ++ c ++ "ReturnValue = " ++ "None" :=
          strAppendSplit ("        " ++ c) ("ReturnValue = ") ("None") ("ReturnValue = None") rfl
        rw [heq]
        simp
      · simpa using aktGet2_aktSet_same (aktSet st.akt dn (c ++ "Parameters") ("None")) dn
          (c ++ "ReturnValue") ("None")
    | some ps =>
      rw [hp] at hok
      simp only [Option.isSome_some, if_true] at hok
      cases hg : generate_typed_dicts GFUEL cmd dn (some (c ++ "_" ++ dn ++ "_Parameters")) 0 with
      | error e => rw [hg] at hok; simp at hok
      | ok tds =>
        rw [hg] at hok
        simp only [] at hok
        cases hok
        constructor
        · have heq : ("        " ++ c ++ "ReturnValue = None")
              = "        " ++ c ++ "ReturnValue = " ++ "None" :=
            strAppendSplit ("        " ++ c) ("ReturnValue = ") ("None") ("ReturnValue = None") rfl
          rw [heq]
          simp
        · simpa using aktGet2_aktSet_same
            (aktSet st.akt dn (c ++ "Parameters") (c ++ "_" ++ dn ++ "_Parameters")) dn
            (c ++ "ReturnValue") ("None")

/-- Concrete input of the C10 witness: a command with neither parameters
nor returns, processed from a fresh domain state. -/
def w10st0 : GenState :=
  { akt := [("D", [])], typed_dicts := [], xrefs := [],
    import_lines := [], inserted_lines := [], code_lines := [], lastTypeInfo := none }

/-- The command node of the C10 witness. -/
def w10cmd : InfoNode := { name? := some ("go") }

/-- The state produced by processCommand on the C10 witness input. -/
def w10st2 : GenState :=
  { akt := [("D", [("goParameters", "None"), ("goReturnValue", "None")])],
    typed_dicts := [], xrefs := [],
    import_lines := [], inserted_lines := [],
    code_lines := ["        goParameters = None", "        goReturnValue = None"],
    lastTypeInfo := none }

/-- C10 witness: both alias lines and registry entries on the concrete
command without parameters and returns. -/
theorem C10_missing_source_none_alias_witness :
    (("        " ++ "go" ++ "Parameters = None") ∈ w10st2.code_lines
      ∧ aktGet2 w10st2.akt ("D") ("go" ++ "Parameters") = Except.ok ("None"))
    ∧ (("        " ++ "go" ++ "ReturnValue = None") ∈ w10st2.code_lines
      ∧ aktGet2 w10st2.akt ("D") ("go" ++ "ReturnValue") = Except.ok ("None")) := by
  have h := C10_missing_source_none_alias w10st0 ("D") w10cmd ("go") w10st2 rfl rfl
  exact ⟨h.1 rfl, h.2 rfl⟩

end ProtoGen
